import Mathlib

/-
Verification of the HTTP routing layer of the retrieval-plugin server
(`server/main.py`).  The handlers are embedded as pure Lean functions over an
explicit environment (process environment variables), a datastore resolver and
the request data.  Each handler additionally returns the ordered list of
observable events it performed (auth validation, datastore resolution,
datastore operation invocation, response wrapping, error logging), so that
ordering properties of the request pipeline can be stated.
-/

namespace RetrievalPlugin

/-- Modelled from the spec: the `Document` transport record (identifier, text,
optional metadata); `models.api` is not part of the reviewed source. -/
structure Document where
  id : Option String
  text : String
  metadata : Option String
deriving DecidableEq

/-- Modelled from the spec: a query object, natural-language text plus an
optional metadata filter; `models.api` is not part of the reviewed source. -/
structure Query where
  query : String
  filter : Option String
deriving DecidableEq

/-- Modelled from the spec: one result set returned for one query. -/
structure QueryResult where
  query : String
  results : List String
deriving DecidableEq

/-- Modelled from the spec: upsert request, a list of documents. -/
structure UpsertRequest where
  documents : List Document
deriving DecidableEq

/-- Modelled from the spec: upsert response, the list of generated identifiers. -/
structure UpsertResponse where
  ids : List String
deriving DecidableEq

/-- Modelled from the spec: query request, a list of query objects. -/
structure QueryRequest where
  queries : List Query
deriving DecidableEq

/-- Modelled from the spec: query response, a list of result sets. -/
structure QueryResponse where
  results : List QueryResult
deriving DecidableEq

/-- Modelled from the spec: delete request with optional ids, optional metadata
filter and optional delete-all flag. -/
structure DeleteRequest where
  ids : Option (List String)
  filter : Option String
  delete_all : Option Bool
deriving DecidableEq

/-- Modelled from the spec: delete response, a success boolean. -/
structure DeleteResponse where
  success : Bool
deriving DecidableEq

/-- Modelled from the spec: an uploaded multipart file (content is opaque at
this layer). -/
structure UploadFile where
  content : String
deriving DecidableEq

/-- A bearer credential as delivered by the `HTTPBearer` dependency: the
authorization scheme and the credential string. -/
structure Credentials where
  scheme : String
  credentials : String
deriving DecidableEq

/-- A raised Python exception, as seen by `handle_error`, which reads the
attributes `status_code` and `detail` with `getattr` defaults: each attribute
is independently present or absent.  An `HTTPException` carries both; an
`AttributeError` (for instance from `None.upper()`) carries neither. -/
structure Exn where
  status_code : Option Nat
  detail : Option String
deriving DecidableEq

/-- Observable events of one request, in the order the handler performs them. -/
inductive Event where
  | extractDocument
  | validateAuth
  | resolveDatastore (index_name : Option String)
  | invokeOp (op : String)
  | wrapResponse
  | logError (detail : String) (status_code : Nat)
deriving DecidableEq

/-- The outcome of a request: a response body, or an HTTP error with a status
code and a detail message. -/
inductive HandlerResult (α : Type) where
  | ok (value : α)
  | error (status_code : Nat) (detail : String)
deriving DecidableEq

/-- Modelled from the spec: a datastore handle implementing upsert, query and
delete; `datastore.factory` and the backing implementations are not part of
the reviewed source.  Each operation may raise. -/
structure Datastore where
  upsert : List Document → Except Exn (List String)
  query : List Query → Except Exn (List QueryResult)
  delete : Option (List String) → Option String → Option Bool → Except Exn Bool

/-- The process environment: a partial map from variable names to values,
`os.environ.get`. -/
abbrev Env := String → Option String

/-- Modelled from the spec: `get_datastore(index_name=...)` resolves a store
name (possibly absent, falling back to a default store) to a handle. -/
abbrev Resolver := Option String → Datastore

/-- ASCII upper-casing of a string, the semantics of Python `str.upper()` on
the ASCII store names used here. -/
def strUpper (s : String) : String :=
  ⟨s.data.map Char.toUpper⟩

/-- The environment variable expected to hold the secret of a named store:
`f"{pinecone_name.upper()}_BEARER"`. -/
def envVarName (pinecone_name : String) : String :=
  strUpper pinecone_name ++ "_BEARER"

/-- The 400 detail produced by `validate_token` when the expected environment
variable is absent. -/
def credsMissingMsg (pinecone_name : String) : String :=
  "The server doesn\x27t have credentials setup for the pinecone " ++ pinecone_name ++
    ". It must be stored as an ENV named " ++ envVarName pinecone_name

/-- `validate_token(pinecone_name, credentials)`: looks up the per-store secret
from the environment and checks the bearer credential against it.  A `none`
store name makes `pinecone_name.upper()` raise an `AttributeError`, which
carries neither a status code nor a detail. -/
def validate_token (env : Env) (pinecone_name : Option String)
    (credentials : Credentials) : Except Exn Credentials :=
  match pinecone_name with
  | none => Except.error ⟨none, none⟩
  | some name =>
    match env (envVarName name) with
    | none => Except.error ⟨some 400, some (credsMissingMsg name)⟩
    | some correct_auth_header =>
      if credentials.scheme ≠ "Bearer" ∨ credentials.credentials ≠ correct_auth_header then
        Except.error ⟨some 401, some "Invalid or missing token"⟩
      else
        Except.ok credentials

/-- `handle_error(e)`: reads the status code (default 500) and detail (default
the generic message) off the exception, logs them, and produces the HTTP
error. -/
def handle_error {α : Type} (e : Exn) : List Event × HandlerResult α :=
  let status_code := e.status_code.getD 500
  let detail := e.detail.getD "Internal Service Error"
  ([Event.logError detail status_code], HandlerResult.error status_code detail)

/-- The `POST /upsert` handler. -/
def upsert (env : Env) (resolver : Resolver) (request : UpsertRequest)
    (token : Credentials) (pinecone_name : Option String) :
    List Event × HandlerResult UpsertResponse :=
  match validate_token env pinecone_name token with
  | Except.error e =>
    let r := (handle_error e : List Event × HandlerResult UpsertResponse)
    (Event.validateAuth :: r.1, r.2)
  | Except.ok _ =>
    let datastore := resolver pinecone_name
    match datastore.upsert request.documents with
    | Except.error e =>
      let r := (handle_error e : List Event × HandlerResult UpsertResponse)
      (Event.validateAuth :: Event.resolveDatastore pinecone_name ::
        Event.invokeOp "upsert" :: r.1, r.2)
    | Except.ok ids =>
      ([Event.validateAuth, Event.resolveDatastore pinecone_name,
        Event.invokeOp "upsert", Event.wrapResponse],
        HandlerResult.ok ⟨ids⟩)

/-- The `POST /upsert-file` handler.  The file-to-document adapter
(`get_document_from_file`, modelled from the spec as a total conversion since
its source is not part of the reviewed slice) runs before token validation and
outside the guarded region. -/
def upsert_file (env : Env) (resolver : Resolver) (adapter : UploadFile → Document)
    (file : UploadFile) (token : Credentials) (pinecone_name : Option String) :
    List Event × HandlerResult UpsertResponse :=
  let document := adapter file
  match validate_token env pinecone_name token with
  | Except.error e =>
    let r := (handle_error e : List Event × HandlerResult UpsertResponse)
    (Event.extractDocument :: Event.validateAuth :: r.1, r.2)
  | Except.ok _ =>
    let datastore := resolver pinecone_name
    match datastore.upsert [document] with
    | Except.error e =>
      let r := (handle_error e : List Event × HandlerResult UpsertResponse)
      (Event.extractDocument :: Event.validateAuth ::
        Event.resolveDatastore pinecone_name :: Event.invokeOp "upsert" :: r.1, r.2)
    | Except.ok ids =>
      ([Event.extractDocument, Event.validateAuth, Event.resolveDatastore pinecone_name,
        Event.invokeOp "upsert", Event.wrapResponse],
        HandlerResult.ok ⟨ids⟩)

/-- The `POST /query` handler of the main application. -/
def query_main (env : Env) (resolver : Resolver) (request : QueryRequest)
    (token : Credentials) (pinecone_name : Option String) :
    List Event × HandlerResult QueryResponse :=
  match validate_token env pinecone_name token with
  | Except.error e =>
    let r := (handle_error e : List Event × HandlerResult QueryResponse)
    (Event.validateAuth :: r.1, r.2)
  | Except.ok _ =>
    let datastore := resolver pinecone_name
    match datastore.query request.queries with
    | Except.error e =>
      let r := (handle_error e : List Event × HandlerResult QueryResponse)
      (Event.validateAuth :: Event.resolveDatastore pinecone_name ::
        Event.invokeOp "query" :: r.1, r.2)
    | Except.ok results =>
      ([Event.validateAuth, Event.resolveDatastore pinecone_name,
        Event.invokeOp "query", Event.wrapResponse],
        HandlerResult.ok ⟨results⟩)

/-- The `POST /sub/query` handler of the sub-application.  It validates the
token like the others but then uses the process-global `datastore` handle
(the one resolved once at startup), never calling `get_datastore` with the
`pinecone_name` of the request. -/
def query (env : Env) (datastore : Datastore) (request : QueryRequest)
    (token : Credentials) (pinecone_name : Option String) :
    List Event × HandlerResult QueryResponse :=
  match validate_token env pinecone_name token with
  | Except.error e =>
    let r := (handle_error e : List Event × HandlerResult QueryResponse)
    (Event.validateAuth :: r.1, r.2)
  | Except.ok _ =>
    match datastore.query request.queries with
    | Except.error e =>
      let r := (handle_error e : List Event × HandlerResult QueryResponse)
      (Event.validateAuth :: Event.invokeOp "query" :: r.1, r.2)
    | Except.ok results =>
      ([Event.validateAuth, Event.invokeOp "query", Event.wrapResponse],
        HandlerResult.ok ⟨results⟩)

/-- The `startup` event handler: resolves the process-global datastore from the
`PINECONE_INDEX` environment variable. -/
def startup (env : Env) (resolver : Resolver) : Datastore :=
  resolver (env "PINECONE_INDEX")

/-- Python truthiness of `request.ids or request.filter or request.delete_all`:
`None` and an empty list are falsy, a present filter object is truthy, the
flag is truthy exactly when it is `True`. -/
def deleteBodyTruthy (request : DeleteRequest) : Bool :=
  (match request.ids with
    | some l => !l.isEmpty
    | none => false) ||
  request.filter.isSome ||
  request.delete_all.getD false

/-- The `DELETE /delete` handler.  The request-shape check runs first, before
token validation and outside the guarded region, raising its 400 directly
(not through `handle_error`, hence unlogged). -/
def delete (env : Env) (resolver : Resolver) (request : DeleteRequest)
    (token : Credentials) (pinecone_name : Option String) :
    List Event × HandlerResult DeleteResponse :=
  if !deleteBodyTruthy request then
    ([], HandlerResult.error 400 "One of ids, filter, or delete_all is required")
  else
    match validate_token env pinecone_name token with
    | Except.error e =>
      let r := (handle_error e : List Event × HandlerResult DeleteResponse)
      (Event.validateAuth :: r.1, r.2)
    | Except.ok _ =>
      let datastore := resolver pinecone_name
      match datastore.delete request.ids request.filter request.delete_all with
      | Except.error e =>
        let r := (handle_error e : List Event × HandlerResult DeleteResponse)
        (Event.validateAuth :: Event.resolveDatastore pinecone_name ::
          Event.invokeOp "delete" :: r.1, r.2)
      | Except.ok success =>
        ([Event.validateAuth, Event.resolveDatastore pinecone_name,
          Event.invokeOp "delete", Event.wrapResponse],
          HandlerResult.ok ⟨success⟩)

/-- Modelled from the spec: the bearer-extraction dependency
(`bearer_scheme = HTTPBearer()` is declared in the reviewed source, its
implementation lives in the hosting framework).  Per the spec, a request
missing its bearer credential is rejected with 401 before the handler body
runs. -/
def bearer_gate (auth : Option Credentials) : Except Exn Credentials :=
  match auth with
  | none => Except.error ⟨some 401, some "Invalid or missing token"⟩
  | some c => Except.ok c

/-- The `POST /upsert` route: bearer extraction, then the handler. -/
def upsert_route (env : Env) (resolver : Resolver) (request : UpsertRequest)
    (auth : Option Credentials) (pinecone_name : Option String) :
    List Event × HandlerResult UpsertResponse :=
  match bearer_gate auth with
  | Except.error e =>
    ([], HandlerResult.error (e.status_code.getD 500) (e.detail.getD "Internal Service Error"))
  | Except.ok token => upsert env resolver request token pinecone_name

/-- The `POST /upsert-file` route: bearer extraction, then the handler. -/
def upsert_file_route (env : Env) (resolver : Resolver) (adapter : UploadFile → Document)
    (file : UploadFile) (auth : Option Credentials) (pinecone_name : Option String) :
    List Event × HandlerResult UpsertResponse :=
  match bearer_gate auth with
  | Except.error e =>
    ([], HandlerResult.error (e.status_code.getD 500) (e.detail.getD "Internal Service Error"))
  | Except.ok token => upsert_file env resolver adapter file token pinecone_name

/-- The `POST /query` route: bearer extraction, then the handler. -/
def query_main_route (env : Env) (resolver : Resolver) (request : QueryRequest)
    (auth : Option Credentials) (pinecone_name : Option String) :
    List Event × HandlerResult QueryResponse :=
  match bearer_gate auth with
  | Except.error e =>
    ([], HandlerResult.error (e.status_code.getD 500) (e.detail.getD "Internal Service Error"))
  | Except.ok token => query_main env resolver request token pinecone_name

/-- The `POST /sub/query` route: bearer extraction, then the handler. -/
def query_route (env : Env) (datastore : Datastore) (request : QueryRequest)
    (auth : Option Credentials) (pinecone_name : Option String) :
    List Event × HandlerResult QueryResponse :=
  match bearer_gate auth with
  | Except.error e =>
    ([], HandlerResult.error (e.status_code.getD 500) (e.detail.getD "Internal Service Error"))
  | Except.ok token => query env datastore request token pinecone_name

/-- The `DELETE /delete` route: bearer extraction, then the handler. -/
def delete_route (env : Env) (resolver : Resolver) (request : DeleteRequest)
    (auth : Option Credentials) (pinecone_name : Option String) :
    List Event × HandlerResult DeleteResponse :=
  match bearer_gate auth with
  | Except.error e =>
    ([], HandlerResult.error (e.status_code.getD 500) (e.detail.getD "Internal Service Error"))
  | Except.ok token => delete env resolver request token pinecone_name

/-- The four pipeline steps of the specified control flow (document extraction
and error logging are not among them). -/
def Event.isStep : Event → Bool
  | Event.validateAuth => true
  | Event.resolveDatastore _ => true
  | Event.invokeOp _ => true
  | Event.wrapResponse => true
  | _ => false

/-- The pipeline steps of a trace, in order. -/
def stepEvents (evs : List Event) : List Event :=
  evs.filter Event.isStep

/-- Whether a trace follows the specified order: validate auth, then resolve
the datastore, then invoke exactly one datastore operation, then wrap the
response. -/
def specOrdered (evs : List Event) : Bool :=
  match stepEvents evs with
  | [Event.validateAuth, Event.resolveDatastore _, Event.invokeOp _, Event.wrapResponse] => true
  | _ => false

/-- How many datastore operations a trace invokes. -/
def invokeCount (evs : List Event) : Nat :=
  (evs.filter fun e =>
    match e with
    | Event.invokeOp _ => true
    | _ => false).length

/-- Whether the second character list is a prefix of the first. -/
def listHasPrefix : List Char → List Char → Bool
  | _, [] => true
  | [], _ :: _ => false
  | c :: cs, d :: ds => c == d && listHasPrefix cs ds

/-- Whether the second character list occurs contiguously in the first. -/
def listContainsSub : List Char → List Char → Bool
  | [], v => v.isEmpty
  | c :: cs, v => listHasPrefix (c :: cs) v || listContainsSub cs v

/-- Whether an error message names (contains) a given variable name. -/
def mentionsVar (msg v : String) : Bool :=
  listContainsSub msg.data v.data

/-- Sample datastore used for concrete runs: upsert echoes one identifier per
document, query answers every query with result list `["A"]`. -/
def dsA : Datastore where
  upsert := fun docs => Except.ok (docs.map fun d => d.id.getD "generated")
  query := fun qs => Except.ok (qs.map fun q => ⟨q.query, ["A"]⟩)
  delete := fun _ _ _ => Except.ok true

/-- Second sample datastore: query answers every query with result list
`["B"]`. -/
def dsB : Datastore where
  upsert := fun docs => Except.ok (docs.map fun d => d.id.getD "generated")
  query := fun qs => Except.ok (qs.map fun q => ⟨q.query, ["B"]⟩)
  delete := fun _ _ _ => Except.ok true

/-- Sample environment: a secret is configured for the stores `other` and
`main`, and `PINECONE_INDEX` is unset. -/
def envMain : Env := fun n =>
  if n = "OTHER_BEARER" then some "secret-token"
  else if n = "MAIN_BEARER" then some "main-secret"
  else none

/-- Environment with no per-store secrets at all. -/
def envGhost : Env := fun _ => none

/-- Sample resolver: the store named `other` is backed by `dsA`, every other
index name (including the startup default) by `dsB`. -/
def resolverAB : Resolver := fun n =>
  if n = some "other" then dsA else dsB

/-- A correct bearer credential for the store `other` under `envMain`. -/
def tokOther : Credentials := ⟨"Bearer", "secret-token"⟩

/-- A bearer credential that matches no configured secret. -/
def tokWrong : Credentials := ⟨"Bearer", "wrong-token"⟩

/-- A one-query request. -/
def reqQ : QueryRequest := ⟨[⟨"q", none⟩]⟩

/-- The empty delete body: none of ids, filter, delete_all supplied. -/
def emptyDeleteReq : DeleteRequest := ⟨none, none, none⟩

/-- A well-formed delete body selecting explicit ids. -/
def dreqW : DeleteRequest := ⟨some ["a"], none, none⟩

/-- A two-document upsert request. -/
def ureqW : UpsertRequest := ⟨[⟨some "a", "text a", none⟩, ⟨none, "text b", none⟩]⟩

/-- A sample uploaded file and its adapter. -/
def fileW : UploadFile := ⟨"file body"⟩

/-- Sample file-to-document adapter for concrete runs. -/
def adapterW : UploadFile → Document := fun f => ⟨some "f", f.content, none⟩

/- Shared helper lemmas. -/

theorem listHasPrefix_self (v : List Char) : listHasPrefix v v = true := by
  induction v with
  | nil => rfl
  | cons c cs ih => simp [listHasPrefix, ih]

theorem listContainsSub_append_self (xs v : List Char) :
    listContainsSub (xs ++ v) v = true := by
  induction xs with
  | nil =>
    cases v with
    | nil => rfl
    | cons d ds => simp [listContainsSub, listHasPrefix_self]
  | cons x xs ih => simp [listContainsSub, ih]

theorem mentionsVar_append (s v : String) : mentionsVar (s ++ v) v = true := by
  unfold mentionsVar
  rw [String.data_append]
  exact listContainsSub_append_self s.data v.data

theorem mentionsVar_credsMissingMsg (name : String) :
    mentionsVar (credsMissingMsg name) (envVarName name) = true :=
  mentionsVar_append _ _

/-- Claim C2: every `DELETE /delete` request whose body supplies none of ids,
filter and delete_all yields a 400 error with detail "One of ids, filter, or
delete_all is required", for every environment, resolver (datastore state) and
token. -/
theorem delete_empty_body_returns_400 (env : Env) (resolver : Resolver)
    (request : DeleteRequest) (token : Credentials) (pinecone_name : Option String)
    (hids : request.ids = none) (hfil : request.filter = none)
    (hall : request.delete_all = none) :
    (delete env resolver request token pinecone_name).2 =
      HandlerResult.error 400 "One of ids, filter, or delete_all is required" := by
  simp [delete, deleteBodyTruthy, hids, hfil, hall]

theorem delete_empty_body_returns_400_witness :
    emptyDeleteReq.ids = none ∧ emptyDeleteReq.filter = none ∧
    emptyDeleteReq.delete_all = none ∧
    (delete envMain resolverAB emptyDeleteReq tokOther (some "main")).2 =
      HandlerResult.error 400 "One of ids, filter, or delete_all is required" :=
  ⟨rfl, rfl, rfl,
    delete_empty_body_returns_400 envMain resolverAB emptyDeleteReq tokOther (some "main")
      rfl rfl rfl⟩

/-- Claim C10: in the delete handler the request-shape check runs before token
validation: an empty body yields the 400 shape error for every environment and
token (in particular an invalid token or an unconfigured store), and no token
validation is performed. -/
theorem delete_shape_check_precedes_auth (env : Env) (resolver : Resolver)
    (request : DeleteRequest) (token : Credentials) (pinecone_name : Option String)
    (hids : request.ids = none) (hfil : request.filter = none)
    (hall : request.delete_all = none) :
    (delete env resolver request token pinecone_name).2 =
      HandlerResult.error 400 "One of ids, filter, or delete_all is required" ∧
    Event.validateAuth ∉ (delete env resolver request token pinecone_name).1 := by
  constructor
  · simp [delete, deleteBodyTruthy, hids, hfil, hall]
  · simp [delete, deleteBodyTruthy, hids, hfil, hall]

theorem delete_shape_check_precedes_auth_witness :
    emptyDeleteReq.ids = none ∧ emptyDeleteReq.filter = none ∧
    emptyDeleteReq.delete_all = none ∧
    ((delete envGhost resolverAB emptyDeleteReq tokWrong (some "ghost")).2 =
      HandlerResult.error 400 "One of ids, filter, or delete_all is required" ∧
    Event.validateAuth ∉ (delete envGhost resolverAB emptyDeleteReq tokWrong (some "ghost")).1) :=
  ⟨rfl, rfl, rfl,
    delete_shape_check_precedes_auth envGhost resolverAB emptyDeleteReq tokWrong (some "ghost")
      rfl rfl rfl⟩

/-- Claim C1 (code bug witness): `POST /sub/query` does not implement the same
contract as `POST /query`.  On the same body, bearer token and `pinecone_name`
header, both handlers validate the token identically and succeed, yet the main
handler answers from the datastore resolved from the header (store `other`,
backed by `dsA`) while the sub handler answers from the process-global
startup-resolved datastore (`dsB`), so the responses differ. -/
theorem sub_query_uses_startup_datastore :
    (query_main envMain resolverAB reqQ tokOther (some "other")).2 =
      HandlerResult.ok ⟨[⟨"q", ["A"]⟩]⟩ ∧
    (query envMain (startup envMain resolverAB) reqQ tokOther (some "other")).2 =
      HandlerResult.ok ⟨[⟨"q", ["B"]⟩]⟩ ∧
    (HandlerResult.ok (⟨[⟨"q", ["A"]⟩]⟩ : QueryResponse) : HandlerResult QueryResponse) ≠
      HandlerResult.ok ⟨[⟨"q", ["B"]⟩]⟩ :=
  ⟨rfl, rfl, by decide⟩

/-- Claim C6: the error normalizer surfaces the exception attributes that are
present and defaults the absent ones: status code and detail when present,
status 500 when no status code is carried, and the generic message "Internal
Service Error" when no detail is carried. -/
theorem handle_error_normalizes (s : Nat) (d : String) :
    (handle_error ⟨some s, some d⟩ : List Event × HandlerResult DeleteResponse).2 =
      HandlerResult.error s d ∧
    (handle_error ⟨none, none⟩ : List Event × HandlerResult DeleteResponse).2 =
      HandlerResult.error 500 "Internal Service Error" ∧
    (handle_error ⟨some s, none⟩ : List Event × HandlerResult DeleteResponse).2 =
      HandlerResult.error s "Internal Service Error" ∧
    (handle_error ⟨none, some d⟩ : List Event × HandlerResult DeleteResponse).2 =
      HandlerResult.error 500 d :=
  ⟨rfl, rfl, rfl, rfl⟩

theorem handle_error_normalizes_witness :
    (handle_error ⟨some 404, some "Not Found"⟩ : List Event × HandlerResult DeleteResponse).2 =
      HandlerResult.error 404 "Not Found" ∧
    (handle_error ⟨none, none⟩ : List Event × HandlerResult DeleteResponse).2 =
      HandlerResult.error 500 "Internal Service Error" ∧
    (handle_error ⟨some 404, none⟩ : List Event × HandlerResult DeleteResponse).2 =
      HandlerResult.error 404 "Internal Service Error" ∧
    (handle_error ⟨none, some "Not Found"⟩ : List Event × HandlerResult DeleteResponse).2 =
      HandlerResult.error 500 "Not Found" :=
  handle_error_normalizes 404 "Not Found"


/-- Claim C3 counterexample: a `DELETE /delete` request with an empty body that
names the store `ghost`, for which no secret environment variable exists,
returns a 400 whose message is the shape error and does not name the expected
variable `GHOST_BEARER` - so not every request naming an unconfigured store
gets a 400 naming the variable. -/
theorem missing_secret_message_not_universal :
    envGhost (envVarName "ghost") = none ∧
    (delete envGhost resolverAB emptyDeleteReq tokOther (some "ghost")).2 =
      HandlerResult.error 400 "One of ids, filter, or delete_all is required" ∧
    mentionsVar "One of ids, filter, or delete_all is required" (envVarName "ghost") = false :=
  ⟨rfl, rfl, by decide⟩

/-- Claim C3 (amended): for every request that reaches token validation - that
is, every request except a `DELETE /delete` whose body supplies none of ids,
filter and delete_all - naming a store with no corresponding secret
environment variable yields a 400 error whose message names the expected
variable, the store name uppercased with suffix `_BEARER`. -/
theorem missing_secret_400_names_var (env : Env) (resolver : Resolver)
    (adapter : UploadFile → Document) (ds : Datastore) (name : String)
    (token : Credentials) (ureq : UpsertRequest) (file : UploadFile)
    (qreq : QueryRequest) (dreq : DeleteRequest)
    (henv : env (envVarName name) = none)
    (hbody : deleteBodyTruthy dreq = true) :
    (upsert env resolver ureq token (some name)).2 =
      HandlerResult.error 400 (credsMissingMsg name) ∧
    (upsert_file env resolver adapter file token (some name)).2 =
      HandlerResult.error 400 (credsMissingMsg name) ∧
    (query_main env resolver qreq token (some name)).2 =
      HandlerResult.error 400 (credsMissingMsg name) ∧
    (query env ds qreq token (some name)).2 =
      HandlerResult.error 400 (credsMissingMsg name) ∧
    (delete env resolver dreq token (some name)).2 =
      HandlerResult.error 400 (credsMissingMsg name) ∧
    mentionsVar (credsMissingMsg name) (envVarName name) = true := by
  refine ⟨?_, ?_, ?_, ?_, ?_, mentionsVar_credsMissingMsg name⟩ <;>
    simp [upsert, upsert_file, query_main, query, delete, hbody,
      validate_token, henv, handle_error]

theorem missing_secret_400_names_var_witness :
    envGhost (envVarName "ghost") = none ∧ deleteBodyTruthy dreqW = true ∧
    ((upsert envGhost resolverAB ureqW tokOther (some "ghost")).2 =
      HandlerResult.error 400 (credsMissingMsg "ghost") ∧
    (upsert_file envGhost resolverAB adapterW fileW tokOther (some "ghost")).2 =
      HandlerResult.error 400 (credsMissingMsg "ghost") ∧
    (query_main envGhost resolverAB reqQ tokOther (some "ghost")).2 =
      HandlerResult.error 400 (credsMissingMsg "ghost") ∧
    (query envGhost dsB reqQ tokOther (some "ghost")).2 =
      HandlerResult.error 400 (credsMissingMsg "ghost") ∧
    (delete envGhost resolverAB dreqW tokOther (some "ghost")).2 =
      HandlerResult.error 400 (credsMissingMsg "ghost") ∧
    mentionsVar (credsMissingMsg "ghost") (envVarName "ghost") = true) :=
  ⟨rfl, rfl,
    missing_secret_400_names_var envGhost resolverAB adapterW dsB "ghost" tokOther
      ureqW fileW reqQ dreqW rfl rfl⟩

/-- Claim C4 counterexample: a `DELETE /delete` request with an empty body that
presents a bearer credential different from the configured secret of the named
store receives the 400 shape error, not a 401 - so not every request with a
mismatched bearer credential gets a 401. -/
theorem invalid_token_not_always_401 :
    envMain (envVarName "other") = some "secret-token" ∧
    tokWrong.scheme = "Bearer" ∧
    tokWrong.credentials ≠ "secret-token" ∧
    (delete envMain resolverAB emptyDeleteReq tokWrong (some "other")).2 =
      HandlerResult.error 400 "One of ids, filter, or delete_all is required" :=
  ⟨rfl, rfl, by decide, rfl⟩

/-- Claim C4 (amended): every request that is missing its bearer credential, or
presents a credential whose scheme is not `Bearer` or whose value differs from
the configured secret of the named store, receives a 401 error - except a
`DELETE /delete` that presents such a mismatched credential with a body
supplying none of ids, filter and delete_all, which receives the 400 shape
error first; a request missing its bearer credential receives the 401 for
every body shape, the empty delete body included. -/
theorem bad_or_missing_token_401 (env : Env) (resolver : Resolver)
    (adapter : UploadFile → Document) (ds : Datastore) (name secret : String)
    (creds : Credentials) (ureq : UpsertRequest) (file : UploadFile)
    (qreq : QueryRequest) (dreq dreq2 : DeleteRequest)
    (henv : env (envVarName name) = some secret)
    (hbad : creds.scheme ≠ "Bearer" ∨ creds.credentials ≠ secret)
    (hbody : deleteBodyTruthy dreq = true) :
    (upsert_route env resolver ureq (some creds) (some name)).2 =
      HandlerResult.error 401 "Invalid or missing token" ∧
    (upsert_file_route env resolver adapter file (some creds) (some name)).2 =
      HandlerResult.error 401 "Invalid or missing token" ∧
    (query_main_route env resolver qreq (some creds) (some name)).2 =
      HandlerResult.error 401 "Invalid or missing token" ∧
    (query_route env ds qreq (some creds) (some name)).2 =
      HandlerResult.error 401 "Invalid or missing token" ∧
    (delete_route env resolver dreq (some creds) (some name)).2 =
      HandlerResult.error 401 "Invalid or missing token" ∧
    (upsert_route env resolver ureq none (some name)).2 =
      HandlerResult.error 401 "Invalid or missing token" ∧
    (upsert_file_route env resolver adapter file none (some name)).2 =
      HandlerResult.error 401 "Invalid or missing token" ∧
    (query_main_route env resolver qreq none (some name)).2 =
      HandlerResult.error 401 "Invalid or missing token" ∧
    (query_route env ds qreq none (some name)).2 =
      HandlerResult.error 401 "Invalid or missing token" ∧
    (delete_route env resolver dreq2 none (some name)).2 =
      HandlerResult.error 401 "Invalid or missing token" := by
  have hv : validate_token env (some name) creds =
      Except.error ⟨some 401, some "Invalid or missing token"⟩ := by
    unfold validate_token
    dsimp only
    rw [henv]
    dsimp only
    rw [if_pos hbad]
  refine ⟨?_, ?_, ?_, ?_, ?_, ?_, ?_, ?_, ?_, ?_⟩ <;>
    simp [upsert_route, upsert_file_route, query_main_route, query_route, delete_route,
      bearer_gate, upsert, upsert_file, query_main, query, delete, hbody, hv, handle_error]

theorem bad_or_missing_token_401_witness :
    envMain (envVarName "other") = some "secret-token" ∧
    (tokWrong.scheme ≠ "Bearer" ∨ tokWrong.credentials ≠ "secret-token") ∧
    deleteBodyTruthy dreqW = true ∧
    ((upsert_route envMain resolverAB ureqW (some tokWrong) (some "other")).2 =
      HandlerResult.error 401 "Invalid or missing token" ∧
    (upsert_file_route envMain resolverAB adapterW fileW (some tokWrong) (some "other")).2 =
      HandlerResult.error 401 "Invalid or missing token" ∧
    (query_main_route envMain resolverAB reqQ (some tokWrong) (some "other")).2 =
      HandlerResult.error 401 "Invalid or missing token" ∧
    (query_route envMain dsB reqQ (some tokWrong) (some "other")).2 =
      HandlerResult.error 401 "Invalid or missing token" ∧
    (delete_route envMain resolverAB dreqW (some tokWrong) (some "other")).2 =
      HandlerResult.error 401 "Invalid or missing token" ∧
    (upsert_route envMain resolverAB ureqW none (some "other")).2 =
      HandlerResult.error 401 "Invalid or missing token" ∧
    (upsert_file_route envMain resolverAB adapterW fileW none (some "other")).2 =
      HandlerResult.error 401 "Invalid or missing token" ∧
    (query_main_route envMain resolverAB reqQ none (some "other")).2 =
      HandlerResult.error 401 "Invalid or missing token" ∧
    (query_route envMain dsB reqQ none (some "other")).2 =
      HandlerResult.error 401 "Invalid or missing token" ∧
    (delete_route envMain resolverAB emptyDeleteReq none (some "other")).2 =
      HandlerResult.error 401 "Invalid or missing token") :=
  ⟨rfl, Or.inr (by decide), rfl,
    bad_or_missing_token_401 envMain resolverAB adapterW dsB "other" "secret-token"
      tokWrong ureqW fileW reqQ dreqW emptyDeleteReq rfl (Or.inr (by decide)) rfl⟩


/-- Claim C5 counterexample: the `POST /sub/query` handler completes a request
successfully with the trace validate auth, invoke query, wrap response - it
never resolves a datastore, so not every handler follows the order validate
auth, resolve datastore, invoke operation, wrap response. -/
theorem sub_query_trace_not_spec_ordered :
    (query envMain dsB reqQ tokOther (some "other")).1 =
      [Event.validateAuth, Event.invokeOp "query", Event.wrapResponse] ∧
    specOrdered (query envMain dsB reqQ tokOther (some "other")).1 = false ∧
    (query envMain dsB reqQ tokOther (some "other")).2 =
      HandlerResult.ok ⟨[⟨"q", ["B"]⟩]⟩ :=
  ⟨rfl, rfl, rfl⟩

/-- Claim C5 (amended): the upsert, upsert-file, query and delete handlers of
the main application process a successful request in the order validate auth,
resolve datastore, invoke exactly one datastore operation, wrap response, and
any exception raised in the guarded region is normalized to an HTTP error with
a status code and message; the sub-scoped query handler instead goes directly
from auth validation to invoking the startup datastore handle, never resolving
a datastore per request. -/
theorem handlers_follow_pipeline_order (env : Env) (resolver : Resolver)
    (adapter : UploadFile → Document) (ds : Datastore)
    (ureq : UpsertRequest) (file : UploadFile) (qreq : QueryRequest) (dreq : DeleteRequest)
    (token token2 : Credentials) (name : Option String)
    (ids fids : List String) (rs rs2 : List QueryResult) (done : Bool) (e : Exn)
    (hv : validate_token env name token = Except.ok token)
    (hbody : deleteBodyTruthy dreq = true)
    (h1 : (resolver name).upsert ureq.documents = Except.ok ids)
    (h2 : (resolver name).upsert [adapter file] = Except.ok fids)
    (h3 : (resolver name).query qreq.queries = Except.ok rs)
    (h4 : (resolver name).delete dreq.ids dreq.filter dreq.delete_all = Except.ok done)
    (h5 : ds.query qreq.queries = Except.ok rs2)
    (hve : validate_token env name token2 = Except.error e) :
    specOrdered (upsert env resolver ureq token name).1 = true ∧
    specOrdered (upsert_file env resolver adapter file token name).1 = true ∧
    specOrdered (query_main env resolver qreq token name).1 = true ∧
    specOrdered (delete env resolver dreq token name).1 = true ∧
    stepEvents (query env ds qreq token name).1 =
      [Event.validateAuth, Event.invokeOp "query", Event.wrapResponse] ∧
    (upsert env resolver ureq token2 name).2 =
      HandlerResult.error (e.status_code.getD 500) (e.detail.getD "Internal Service Error") ∧
    (upsert_file env resolver adapter file token2 name).2 =
      HandlerResult.error (e.status_code.getD 500) (e.detail.getD "Internal Service Error") ∧
    (query_main env resolver qreq token2 name).2 =
      HandlerResult.error (e.status_code.getD 500) (e.detail.getD "Internal Service Error") ∧
    (query env ds qreq token2 name).2 =
      HandlerResult.error (e.status_code.getD 500) (e.detail.getD "Internal Service Error") ∧
    (delete env resolver dreq token2 name).2 =
      HandlerResult.error (e.status_code.getD 500) (e.detail.getD "Internal Service Error") := by
  refine ⟨?_, ?_, ?_, ?_, ?_, ?_, ?_, ?_, ?_, ?_⟩ <;>
    simp [upsert, upsert_file, query_main, query, delete, hv, hbody,
      h1, h2, h3, h4, h5, hve, handle_error, specOrdered, stepEvents,
      Event.isStep, List.filter]

theorem handlers_follow_pipeline_order_witness :
    validate_token envMain (some "other") tokOther = Except.ok tokOther ∧
    deleteBodyTruthy dreqW = true ∧
    (resolverAB (some "other")).upsert ureqW.documents = Except.ok ["a", "generated"] ∧
    (resolverAB (some "other")).upsert [adapterW fileW] = Except.ok ["f"] ∧
    (resolverAB (some "other")).query reqQ.queries = Except.ok [⟨"q", ["A"]⟩] ∧
    (resolverAB (some "other")).delete dreqW.ids dreqW.filter dreqW.delete_all =
      Except.ok true ∧
    dsB.query reqQ.queries = Except.ok [⟨"q", ["B"]⟩] ∧
    validate_token envMain (some "other") tokWrong =
      Except.error ⟨some 401, some "Invalid or missing token"⟩ ∧
    (specOrdered (upsert envMain resolverAB ureqW tokOther (some "other")).1 = true ∧
    specOrdered (upsert_file envMain resolverAB adapterW fileW tokOther (some "other")).1 = true ∧
    specOrdered (query_main envMain resolverAB reqQ tokOther (some "other")).1 = true ∧
    specOrdered (delete envMain resolverAB dreqW tokOther (some "other")).1 = true ∧
    stepEvents (query envMain dsB reqQ tokOther (some "other")).1 =
      [Event.validateAuth, Event.invokeOp "query", Event.wrapResponse] ∧
    (upsert envMain resolverAB ureqW tokWrong (some "other")).2 =
      HandlerResult.error ((⟨some 401, some "Invalid or missing token"⟩ : Exn).status_code.getD 500)
        ((⟨some 401, some "Invalid or missing token"⟩ : Exn).detail.getD "Internal Service Error") ∧
    (upsert_file envMain resolverAB adapterW fileW tokWrong (some "other")).2 =
      HandlerResult.error ((⟨some 401, some "Invalid or missing token"⟩ : Exn).status_code.getD 500)
        ((⟨some 401, some "Invalid or missing token"⟩ : Exn).detail.getD "Internal Service Error") ∧
    (query_main envMain resolverAB reqQ tokWrong (some "other")).2 =
      HandlerResult.error ((⟨some 401, some "Invalid or missing token"⟩ : Exn).status_code.getD 500)
        ((⟨some 401, some "Invalid or missing token"⟩ : Exn).detail.getD "Internal Service Error") ∧
    (query envMain dsB reqQ tokWrong (some "other")).2 =
      HandlerResult.error ((⟨some 401, some "Invalid or missing token"⟩ : Exn).status_code.getD 500)
        ((⟨some 401, some "Invalid or missing token"⟩ : Exn).detail.getD "Internal Service Error") ∧
    (delete envMain resolverAB dreqW tokWrong (some "other")).2 =
      HandlerResult.error ((⟨some 401, some "Invalid or missing token"⟩ : Exn).status_code.getD 500)
        ((⟨some 401, some "Invalid or missing token"⟩ : Exn).detail.getD "Internal Service Error")) :=
  ⟨rfl, rfl, rfl, rfl, rfl, rfl, rfl, rfl,
    handlers_follow_pipeline_order envMain resolverAB adapterW dsB ureqW fileW reqQ dreqW
      tokOther tokWrong (some "other") ["a", "generated"] ["f"] [⟨"q", ["A"]⟩]
      [⟨"q", ["B"]⟩] true ⟨some 401, some "Invalid or missing token"⟩
      rfl rfl rfl rfl rfl rfl rfl rfl⟩

theorem upsert_error_logged (env : Env) (resolver : Resolver) (ureq : UpsertRequest)
    (token : Credentials) (name : Option String) (s : Nat) (d : String)
    (h : (upsert env resolver ureq token name).2 = HandlerResult.error s d) :
    (upsert env resolver ureq token name).1.getLast? = some (Event.logError d s) := by
  cases hval : validate_token env name token with
  | error e =>
    simp [upsert, hval, handle_error] at h ⊢
    simp [h.1, h.2]
  | ok c =>
    cases hop : (resolver name).upsert ureq.documents with
    | error e =>
      simp [upsert, hval, hop, handle_error] at h ⊢
      simp [h.1, h.2]
    | ok ids => simp [upsert, hval, hop] at h

theorem upsert_invoke_le_one (env : Env) (resolver : Resolver) (ureq : UpsertRequest)
    (token : Credentials) (name : Option String) :
    invokeCount (upsert env resolver ureq token name).1 ≤ 1 := by
  cases hval : validate_token env name token with
  | error e => simp [upsert, hval, handle_error, invokeCount]
  | ok c =>
    cases hop : (resolver name).upsert ureq.documents with
    | error e => simp [upsert, hval, hop, handle_error, invokeCount]
    | ok ids => simp [upsert, hval, hop, invokeCount]

theorem upsert_file_error_logged (env : Env) (resolver : Resolver)
    (adapter : UploadFile → Document) (file : UploadFile)
    (token : Credentials) (name : Option String) (s : Nat) (d : String)
    (h : (upsert_file env resolver adapter file token name).2 = HandlerResult.error s d) :
    (upsert_file env resolver adapter file token name).1.getLast? =
      some (Event.logError d s) := by
  cases hval : validate_token env name token with
  | error e =>
    simp [upsert_file, hval, handle_error] at h ⊢
    simp [h.1, h.2]
  | ok c =>
    cases hop : (resolver name).upsert [adapter file] with
    | error e =>
      simp [upsert_file, hval, hop, handle_error] at h ⊢
      simp [h.1, h.2]
    | ok ids => simp [upsert_file, hval, hop] at h

theorem upsert_file_invoke_le_one (env : Env) (resolver : Resolver)
    (adapter : UploadFile → Document) (file : UploadFile)
    (token : Credentials) (name : Option String) :
    invokeCount (upsert_file env resolver adapter file token name).1 ≤ 1 := by
  cases hval : validate_token env name token with
  | error e => simp [upsert_file, hval, handle_error, invokeCount]
  | ok c =>
    cases hop : (resolver name).upsert [adapter file] with
    | error e => simp [upsert_file, hval, hop, handle_error, invokeCount]
    | ok ids => simp [upsert_file, hval, hop, invokeCount]

theorem query_main_error_logged (env : Env) (resolver : Resolver) (qreq : QueryRequest)
    (token : Credentials) (name : Option String) (s : Nat) (d : String)
    (h : (query_main env resolver qreq token name).2 = HandlerResult.error s d) :
    (query_main env resolver qreq token name).1.getLast? = some (Event.logError d s) := by
  cases hval : validate_token env name token with
  | error e =>
    simp [query_main, hval, handle_error] at h ⊢
    simp [h.1, h.2]
  | ok c =>
    cases hop : (resolver name).query qreq.queries with
    | error e =>
      simp [query_main, hval, hop, handle_error] at h ⊢
      simp [h.1, h.2]
    | ok rs => simp [query_main, hval, hop] at h

theorem query_main_invoke_le_one (env : Env) (resolver : Resolver) (qreq : QueryRequest)
    (token : Credentials) (name : Option String) :
    invokeCount (query_main env resolver qreq token name).1 ≤ 1 := by
  cases hval : validate_token env name token with
  | error e => simp [query_main, hval, handle_error, invokeCount]
  | ok c =>
    cases hop : (resolver name).query qreq.queries with
    | error e => simp [query_main, hval, hop, handle_error, invokeCount]
    | ok rs => simp [query_main, hval, hop, invokeCount]

theorem query_error_logged (env : Env) (ds : Datastore) (qreq : QueryRequest)
    (token : Credentials) (name : Option String) (s : Nat) (d : String)
    (h : (query env ds qreq token name).2 = HandlerResult.error s d) :
    (query env ds qreq token name).1.getLast? = some (Event.logError d s) := by
  cases hval : validate_token env name token with
  | error e =>
    simp [query, hval, handle_error] at h ⊢
    simp [h.1, h.2]
  | ok c =>
    cases hop : ds.query qreq.queries with
    | error e =>
      simp [query, hval, hop, handle_error] at h ⊢
      simp [h.1, h.2]
    | ok rs => simp [query, hval, hop] at h

theorem query_invoke_le_one (env : Env) (ds : Datastore) (qreq : QueryRequest)
    (token : Credentials) (name : Option String) :
    invokeCount (query env ds qreq token name).1 ≤ 1 := by
  cases hval : validate_token env name token with
  | error e => simp [query, hval, handle_error, invokeCount]
  | ok c =>
    cases hop : ds.query qreq.queries with
    | error e => simp [query, hval, hop, handle_error, invokeCount]
    | ok rs => simp [query, hval, hop, invokeCount]

theorem delete_error_logged_or_shape (env : Env) (resolver : Resolver)
    (dreq : DeleteRequest) (token : Credentials) (name : Option String)
    (s : Nat) (d : String)
    (h : (delete env resolver dreq token name).2 = HandlerResult.error s d) :
    (deleteBodyTruthy dreq = false ∧ (delete env resolver dreq token name).1 = [] ∧
      s = 400) ∨
    (delete env resolver dreq token name).1.getLast? = some (Event.logError d s) := by
  cases hb : deleteBodyTruthy dreq with
  | false =>
    left
    simp [delete, hb] at h ⊢
    exact h.1.symm
  | true =>
    right
    cases hval : validate_token env name token with
    | error e =>
      simp [delete, hb, hval, handle_error] at h ⊢
      simp [h.1, h.2]
    | ok c =>
      cases hop : (resolver name).delete dreq.ids dreq.filter dreq.delete_all with
      | error e =>
        simp [delete, hb, hval, hop, handle_error] at h ⊢
        simp [h.1, h.2]
      | ok done => simp [delete, hb, hval, hop] at h

theorem delete_invoke_le_one (env : Env) (resolver : Resolver)
    (dreq : DeleteRequest) (token : Credentials) (name : Option String) :
    invokeCount (delete env resolver dreq token name).1 ≤ 1 := by
  cases hb : deleteBodyTruthy dreq with
  | false => simp [delete, hb, invokeCount]
  | true =>
    cases hval : validate_token env name token with
    | error e => simp [delete, hb, hval, handle_error, invokeCount]
    | ok c =>
      cases hop : (resolver name).delete dreq.ids dreq.filter dreq.delete_all with
      | error e => simp [delete, hb, hval, hop, handle_error, invokeCount]
      | ok done => simp [delete, hb, hval, hop, invokeCount]

/-- Claim C7 counterexample: the delete handler returns its 400 shape error
with an empty event trace - the error is returned to the caller without being
logged server-side. -/
theorem delete_shape_error_not_logged :
    (delete envMain resolverAB emptyDeleteReq tokOther (some "other")).2 =
      HandlerResult.error 400 "One of ids, filter, or delete_all is required" ∧
    (delete envMain resolverAB emptyDeleteReq tokOther (some "other")).1 = [] :=
  ⟨rfl, rfl⟩

/-- Claim C7 (amended): every error that passes through the error normalizer is
logged server-side as the last action before the HTTP error response, the one
exception being the delete request-shape 400, which is returned unlogged; no
error is retried (each request invokes at most one datastore operation) and
every failure terminates the request with an HTTP error carrying a status code
and detail. -/
theorem errors_logged_before_response (env : Env) (resolver : Resolver)
    (adapter : UploadFile → Document) (ds : Datastore)
    (ureq : UpsertRequest) (file : UploadFile) (qreq : QueryRequest) (dreq : DeleteRequest)
    (token : Credentials) (name : Option String)
    (s1 s2 s3 s4 s5 : Nat) (d1 d2 d3 d4 d5 : String)
    (h1 : (upsert env resolver ureq token name).2 = HandlerResult.error s1 d1)
    (h2 : (upsert_file env resolver adapter file token name).2 = HandlerResult.error s2 d2)
    (h3 : (query_main env resolver qreq token name).2 = HandlerResult.error s3 d3)
    (h4 : (query env ds qreq token name).2 = HandlerResult.error s4 d4)
    (h5 : (delete env resolver dreq token name).2 = HandlerResult.error s5 d5) :
    (upsert env resolver ureq token name).1.getLast? = some (Event.logError d1 s1) ∧
    invokeCount (upsert env resolver ureq token name).1 ≤ 1 ∧
    (upsert_file env resolver adapter file token name).1.getLast? =
      some (Event.logError d2 s2) ∧
    invokeCount (upsert_file env resolver adapter file token name).1 ≤ 1 ∧
    (query_main env resolver qreq token name).1.getLast? = some (Event.logError d3 s3) ∧
    invokeCount (query_main env resolver qreq token name).1 ≤ 1 ∧
    (query env ds qreq token name).1.getLast? = some (Event.logError d4 s4) ∧
    invokeCount (query env ds qreq token name).1 ≤ 1 ∧
    ((deleteBodyTruthy dreq = false ∧ (delete env resolver dreq token name).1 = [] ∧
        s5 = 400) ∨
      (delete env resolver dreq token name).1.getLast? = some (Event.logError d5 s5)) ∧
    invokeCount (delete env resolver dreq token name).1 ≤ 1 :=
  ⟨upsert_error_logged env resolver ureq token name s1 d1 h1,
    upsert_invoke_le_one env resolver ureq token name,
    upsert_file_error_logged env resolver adapter file token name s2 d2 h2,
    upsert_file_invoke_le_one env resolver adapter file token name,
    query_main_error_logged env resolver qreq token name s3 d3 h3,
    query_main_invoke_le_one env resolver qreq token name,
    query_error_logged env ds qreq token name s4 d4 h4,
    query_invoke_le_one env ds qreq token name,
    delete_error_logged_or_shape env resolver dreq token name s5 d5 h5,
    delete_invoke_le_one env resolver dreq token name⟩

theorem errors_logged_before_response_witness :
    (upsert envGhost resolverAB ureqW tokOther (some "ghost")).2 =
      HandlerResult.error 400 (credsMissingMsg "ghost") ∧
    (upsert_file envGhost resolverAB adapterW fileW tokOther (some "ghost")).2 =
      HandlerResult.error 400 (credsMissingMsg "ghost") ∧
    (query_main envGhost resolverAB reqQ tokOther (some "ghost")).2 =
      HandlerResult.error 400 (credsMissingMsg "ghost") ∧
    (query envGhost dsB reqQ tokOther (some "ghost")).2 =
      HandlerResult.error 400 (credsMissingMsg "ghost") ∧
    (delete envGhost resolverAB dreqW tokOther (some "ghost")).2 =
      HandlerResult.error 400 (credsMissingMsg "ghost") ∧
    ((upsert envGhost resolverAB ureqW tokOther (some "ghost")).1.getLast? =
      some (Event.logError (credsMissingMsg "ghost") 400) ∧
    invokeCount (upsert envGhost resolverAB ureqW tokOther (some "ghost")).1 ≤ 1 ∧
    (upsert_file envGhost resolverAB adapterW fileW tokOther (some "ghost")).1.getLast? =
      some (Event.logError (credsMissingMsg "ghost") 400) ∧
    invokeCount (upsert_file envGhost resolverAB adapterW fileW tokOther (some "ghost")).1 ≤ 1 ∧
    (query_main envGhost resolverAB reqQ tokOther (some "ghost")).1.getLast? =
      some (Event.logError (credsMissingMsg "ghost") 400) ∧
    invokeCount (query_main envGhost resolverAB reqQ tokOther (some "ghost")).1 ≤ 1 ∧
    (query envGhost dsB reqQ tokOther (some "ghost")).1.getLast? =
      some (Event.logError (credsMissingMsg "ghost") 400) ∧
    invokeCount (query envGhost dsB reqQ tokOther (some "ghost")).1 ≤ 1 ∧
    ((deleteBodyTruthy dreqW = false ∧
        (delete envGhost resolverAB dreqW tokOther (some "ghost")).1 = [] ∧
        (400 : Nat) = 400) ∨
      (delete envGhost resolverAB dreqW tokOther (some "ghost")).1.getLast? =
        some (Event.logError (credsMissingMsg "ghost") 400)) ∧
    invokeCount (delete envGhost resolverAB dreqW tokOther (some "ghost")).1 ≤ 1) :=
  ⟨rfl, rfl, rfl, rfl, rfl,
    errors_logged_before_response envGhost resolverAB adapterW dsB ureqW fileW reqQ dreqW
      tokOther (some "ghost") 400 400 400 400 400
      (credsMissingMsg "ghost") (credsMissingMsg "ghost") (credsMissingMsg "ghost")
      (credsMissingMsg "ghost") (credsMissingMsg "ghost") rfl rfl rfl rfl rfl⟩

/-- Claim C8: for every successful `POST /upsert` request, assuming the
datastore upsert operation returns one identifier per input document, the
response identifier list has the same length as the request document list. -/
theorem upsert_ids_length_eq_documents_length (env : Env) (resolver : Resolver)
    (ureq : UpsertRequest) (token : Credentials) (name : Option String)
    (resp : UpsertResponse)
    (hlen : ∀ docs ids, (resolver name).upsert docs = Except.ok ids →
      ids.length = docs.length)
    (hok : (upsert env resolver ureq token name).2 = HandlerResult.ok resp) :
    resp.ids.length = ureq.documents.length := by
  cases hval : validate_token env name token with
  | error e => simp [upsert, hval, handle_error] at hok
  | ok c =>
    cases hop : (resolver name).upsert ureq.documents with
    | error e => simp [upsert, hval, hop, handle_error] at hok
    | ok ids =>
      simp [upsert, hval, hop] at hok
      rw [← hok]
      exact hlen ureq.documents ids hop

theorem upsert_ids_length_eq_documents_length_witness :
    (∀ docs ids, (resolverAB (some "other")).upsert docs = Except.ok ids →
      ids.length = docs.length) ∧
    (upsert envMain resolverAB ureqW tokOther (some "other")).2 =
      HandlerResult.ok ⟨["a", "generated"]⟩ ∧
    (⟨["a", "generated"]⟩ : UpsertResponse).ids.length = ureqW.documents.length :=
  ⟨fun docs ids h => by
      simp [resolverAB, dsA] at h
      simp [← h],
    rfl,
    upsert_ids_length_eq_documents_length envMain resolverAB ureqW tokOther (some "other")
      ⟨["a", "generated"]⟩
      (fun docs ids h => by
        simp [resolverAB, dsA] at h
        simp [← h])
      rfl⟩

/-- Claim C9: for every successful `POST /query` request, assuming the
datastore query operation returns one result set per query of the request in
input order, the response carries exactly that result list - one result set
per input query, in the order of the request queries. -/
theorem query_results_one_per_query_in_order (env : Env) (resolver : Resolver)
    (qreq : QueryRequest) (token : Credentials) (name : Option String)
    (rs : List QueryResult) (resp : QueryResponse)
    (hq : (resolver name).query qreq.queries = Except.ok rs)
    (hlen : rs.length = qreq.queries.length)
    (hok : (query_main env resolver qreq token name).2 = HandlerResult.ok resp) :
    resp.results = rs ∧ resp.results.length = qreq.queries.length := by
  cases hval : validate_token env name token with
  | error e => simp [query_main, hval, handle_error] at hok
  | ok c =>
    simp [query_main, hval, hq] at hok
    rw [← hok]
    exact ⟨rfl, hlen⟩

theorem query_results_one_per_query_in_order_witness :
    (resolverAB (some "other")).query reqQ.queries = Except.ok [⟨"q", ["A"]⟩] ∧
    ([(⟨"q", ["A"]⟩ : QueryResult)]).length = reqQ.queries.length ∧
    (query_main envMain resolverAB reqQ tokOther (some "other")).2 =
      HandlerResult.ok ⟨[⟨"q", ["A"]⟩]⟩ ∧
    ((⟨[⟨"q", ["A"]⟩]⟩ : QueryResponse).results = [⟨"q", ["A"]⟩] ∧
      (⟨[⟨"q", ["A"]⟩]⟩ : QueryResponse).results.length = reqQ.queries.length) :=
  ⟨rfl, rfl, rfl,
    query_results_one_per_query_in_order envMain resolverAB reqQ tokOther (some "other")
      [⟨"q", ["A"]⟩] ⟨[⟨"q", ["A"]⟩]⟩ rfl rfl rfl⟩

end RetrievalPlugin
